import Mathlib

/-!
Verification development for the IOT_FARMING edge-inference pipeline.

Shallow embedding of the health-monitoring and recovery core:
  - the inference Worker (server/ai_server.py): request counter, scheduled
    garbage collection, periodic model reload, and the detect endpoint;
  - the Capture Client (esp32_cam_simulator.py): failure bookkeeping,
    backoff sleeps and the alarm hysteresis state;
  - the Supervisor (start_complete_system.py): the monitor loop that
    restarts the AI Server subject to a restart budget.

Machine integers are modelled as Nat (all counters in the source are
non-negative Python ints); wall-clock timestamps are Nat seconds;
confidences are Nat thousandths.  Fallible operations take explicit
environment values describing the outcome of the corresponding I/O.
-/

namespace IotFarming

/-! ### Worker data model (server/ai_server.py) -/

/-- One detection record as produced by process_yolo_results: class name,
class id, and confidence (scaled to thousandths). -/
structure Detection where
  className : String
  class_id : Nat
  confidence : Nat
deriving Repr, DecidableEq

/-- The worker's model table: the keys of the global models dict. -/
abbrev Table := List String

/-- Outcome of one load_models() call against the models directory:
none means the directory scan itself raises (nothing is loaded and the
exception escapes); some files lists each .pt file found, paired with
whether its individual YOLO load succeeds (individual failures are caught
inside load_models and only skip that file). -/
abbrev LoadEnv := Option (List (String × Bool))

/-- The model names a load environment successfully loads. -/
def loadedNames (files : List (String × Bool)) : Table :=
  (files.filter (fun f => f.2)).map (fun f => f.1)

/-- load_models() adds each successfully loading file to the current
table; a directory-scan failure loads nothing and escapes (none). -/
def load_models_into (t : Table) (env : LoadEnv) : Option Table :=
  match env with
  | none => none
  | some files => some (t ++ loadedNames files)

/-- Worker-global mutable state: the models dict keys, request_counter and
last_model_reload. -/
structure WorkerState where
  models : Table
  request_counter : Nat
  last_model_reload : Nat
deriving Repr, DecidableEq

/-- Disk outcomes for the two load_models() calls a single
reload_models_if_needed() may perform: the main reload and the fallback
attempted when the main one raises. -/
structure ReloadEnv where
  first : LoadEnv
  fallback : LoadEnv
deriving Repr, DecidableEq

/-- reload_models_if_needed(): when request_counter - last_model_reload
has reached 100, the existing models are deleted and the table is
repopulated by load_models(); on success last_model_reload is set to the
current counter.  If load_models() raises, a fallback load_models() is
attempted (last_model_reload is not updated in that case), and if the
fallback also raises the exception is swallowed, leaving the cleared
table as is. -/
def reload_models_if_needed (s : WorkerState) (env : ReloadEnv) : WorkerState :=
  if s.request_counter - s.last_model_reload ≥ 100 then
    match load_models_into [] env.first with
    | some t => { s with models := t, last_model_reload := s.request_counter }
    | none =>
      match load_models_into [] env.fallback with
      | some t => { s with models := t }
      | none => { s with models := [] }
  else s

/-! ### Observable table states during a reload (concurrency claim C9)

The reload mutates the one global models dict in place: the clearing loop
deletes keys one at a time, and load_models() then inserts entries one at
a time.  The trace below lists every table value a concurrent reader of
the dict could observe during a successful reload. -/

/-- Successive table values while the clearing loop deletes the keys in
order, starting from the full table and ending empty. -/
def clear_trace : Table → List Table
  | [] => [[]]
  | m :: rest => (m :: rest) :: clear_trace rest

/-- Successive table values while load_models() inserts each successfully
loading file into the table. -/
def load_trace (acc : Table) : List (String × Bool) → List Table
  | [] => []
  | f :: rest =>
    let acc' := if f.2 then acc ++ [f.1] else acc
    acc' :: load_trace acc' rest

/-- Every table value observable during a successful reload: the clearing
phase followed by the incremental loading phase. -/
def reload_trace (pre : Table) (files : List (String × Bool)) : List Table :=
  clear_trace pre ++ load_trace [] files

/-! ### The detect endpoint (server/ai_server.py, detect_objects) -/

/-- Result of running inference on a decoded image: the processed
detections, the measured processing time in ms, and the image size. -/
structure InferOut where
  detections : List Detection
  proc_time_ms : Nat
  width : Nat
  height : Nat
deriving Repr, DecidableEq

/-- One incoming detect request, after resolving the model-name default:
notJson models a request failing the is_json check; noImage a JSON body
without an image field; request m dec inf carries the resolved model
name, whether base64 decoding succeeds, and the inference outcome (none
when model.predict or result processing raises). -/
inductive DetectRequest where
  | notJson
  | noImage
  | request (model : String) (decodeOk : Bool) (infer : Option InferOut)
deriving Repr, DecidableEq

/-- External environment of one detect call: the request and the disk
outcomes for any reload it triggers. -/
structure DetectEnv where
  req : DetectRequest
  reload : ReloadEnv
deriving Repr, DecidableEq

/-- The success payload of the detect endpoint (the response fields the
core relies on). -/
structure DetectResponse where
  detections : List Detection
  processing_time_ms : Nat
  image_width : Nat
  image_height : Nat
  request_count : Nat
deriving Repr, DecidableEq

/-- Observable outcome of one detect call: the worker state afterwards,
the HTTP status, whether the scheduled (mod-20) GC ran, whether the
post-response GC for counters above 200 ran, whether a reload was
attempted, and the success payload if any. -/
structure DetectResult where
  state : WorkerState
  status : Nat
  gcScheduled : Bool
  gcPost : Bool
  reloadAttempted : Bool
  response : Option DetectResponse
deriving Repr, DecidableEq

/-- detect_objects: increments request_counter first, runs the scheduled
GC when the counter is a multiple of 20, calls reload_models_if_needed,
and only then validates the request: 400 for a non-JSON body, a missing
image, an unknown model or an undecodable image; 500 when inference
raises; on success builds the response and, when the counter exceeds 200,
runs one more GC pass before returning. -/
def detect_objects (s : WorkerState) (env : DetectEnv) : DetectResult :=
  let c := s.request_counter + 1
  let s1 : WorkerState := { s with request_counter := c }
  let gcSched := c % 20 == 0
  let reloadDue := c - s1.last_model_reload ≥ 100
  let s2 := reload_models_if_needed s1 env.reload
  match env.req with
  | .notJson => ⟨s2, 400, gcSched, false, reloadDue, none⟩
  | .noImage => ⟨s2, 400, gcSched, false, reloadDue, none⟩
  | .request m decodeOk infer =>
    if m ∈ s2.models then
      if decodeOk then
        match infer with
        | some out =>
          ⟨s2, 200, gcSched, decide (200 < c), reloadDue,
            some ⟨out.detections, out.proc_time_ms, out.width, out.height, c⟩⟩
        | none => ⟨s2, 500, gcSched, false, reloadDue, none⟩
      else ⟨s2, 400, gcSched, false, reloadDue, none⟩
    else ⟨s2, 400, gcSched, false, reloadDue, none⟩

/-- A garbage-collection pass happened during the call: the scheduled
mod-20 pass, the pass inside an attempted reload, or the post-response
pass for counters above 200. -/
def gcOccurred (r : DetectResult) : Bool :=
  r.gcScheduled || r.reloadAttempted || r.gcPost

/-- Worker state at server start, with the fire model loaded. -/
def initWorker : WorkerState := ⟨["m"], 0, 0⟩

/-- A fully successful detect call: valid request against the loaded
model, image decodes, inference returns, and any triggered reload finds
the model file loadable on disk. -/
def goodEnv : DetectEnv :=
  ⟨.request "m" true (some ⟨[], 7, 640, 480⟩), ⟨some [("m", true)], some [("m", true)]⟩⟩

/-- Worker state after n successful detect calls from initWorker. -/
def iter_detect : Nat → WorkerState
  | 0 => initWorker
  | n + 1 => (detect_objects (iter_detect n) goodEnv).state

/-! ### Capture Client (esp32_cam_simulator.py) -/

/-- Client health bookkeeping: request_count, consecutive_failures and
last_successful_request (a Nat timestamp). -/
structure ClientState where
  request_count : Nat
  consecutive_failures : Nat
  last_successful_request : Nat
deriving Repr, DecidableEq

/-- Outcome of the HTTP post to the worker: a response with a status
code, or an exception (timeout or other connection error). -/
inductive SendOutcome where
  | response (status : Nat)
  | exn (isTimeout : Bool)
deriving Repr, DecidableEq

/-- Observable effect of one _send_to_ai_server call: the client state
afterwards, whether a result was returned (vs None), whether the
health-critical log line was emitted, and the total seconds slept inside
the call. -/
structure SendResult where
  state : ClientState
  gotResult : Bool
  degradedSignal : Bool
  extraSleep : Nat
deriving Repr, DecidableEq

/-- _send_to_ai_server: increments request_count, posts to the worker;
on a 200 response resets consecutive_failures and records the success
time; on any other status increments consecutive_failures and returns
None; on an exception increments consecutive_failures, sleeps 5 extra
seconds for a timeout when request_count exceeds 200 and failures have
reached 2, logs the health-critical line when failures have reached 3,
and sleeps 10 extra seconds when failures have reached 5. -/
def send_to_ai_server (s : ClientState) (now : Nat) (o : SendOutcome) : SendResult :=
  let c := s.request_count + 1
  match o with
  | .response status =>
    if status == 200 then
      ⟨⟨c, 0, now⟩, true, false, 0⟩
    else
      ⟨⟨c, s.consecutive_failures + 1, s.last_successful_request⟩, false, false, 0⟩
  | .exn isTimeout =>
    let f := s.consecutive_failures + 1
    let sleepTimeout := if isTimeout ∧ 200 < c ∧ 2 ≤ f then 5 else 0
    let degraded := 3 ≤ f
    let sleepStall := if 5 ≤ f then 10 else 0
    ⟨⟨c, f, s.last_successful_request⟩, false, degraded, sleepTimeout + sleepStall⟩

/-- The ai_server_health field of the simulator's get_status report. -/
def client_health (s : ClientState) : String :=
  if 3 ≤ s.consecutive_failures then "critical"
  else if 1 ≤ s.consecutive_failures then "warning"
  else "good"

/-- The capture loop's request timeout for the detect post (seconds). -/
def ai_request_timeout : Nat := 15

/-- The default configured frame rate (frames per second). -/
def default_frame_rate : Nat := 1

/-- The base inter-frame interval, 1 / frame_rate, at the default frame
rate (seconds). -/
def frame_interval : Nat := 1 / default_frame_rate

/-- Total delay from the start of one capture cycle to the start of the
next, per the capture loop: the work time (including any sleeps inside
_send_to_ai_server), plus a fixed 2-second pause when no result came
back, topped up to the inter-frame interval. -/
def cycle_delay (interval : Nat) (workTime : Nat) (r : SendResult) : Nat :=
  let e := workTime + r.extraSleep + (if r.gotResult then 0 else 2)
  e + (interval - e)

/-! ### Alarm hysteresis (esp32_cam_simulator.py, _process_detection_result) -/

/-- Per-task alarm state: the fire_on flag and the time of the last
positive detection. -/
structure AlarmState where
  fire_on : Bool
  last_detection_time : Option Nat
deriving Repr, DecidableEq

/-- Whether "fire" occurs in the lowercased class name (the Python
substring test). -/
def nameHasFire (s : String) : Bool :=
  1 < (s.toLower.splitOn ("fire")).length

/-- Target test for the fire task: some detection has class_id 0 or a
class name containing "fire". -/
def is_target_fire (dets : List Detection) : Bool :=
  dets.any (fun d => d.class_id == 0 || nameHasFire d.className)

/-- Hysteresis update of _process_detection_result for the fire task: a
positive detection sets the flag and records the time; a negative one
clears the flag only when the seconds component of the elapsed time
since the last positive (Python timedelta.seconds, the total elapsed
seconds modulo 86400) exceeds 30. -/
def process_detection_result (s : AlarmState) (now : Nat) (dets : List Detection) : AlarmState :=
  if is_target_fire dets then
    { fire_on := true, last_detection_time := some now }
  else
    match s.last_detection_time with
    | some t0 => if (now - t0) % 86400 > 30 then { s with fire_on := false } else s
    | none => s

/-- Folding a list of timed detection events through the alarm update. -/
def observe_events (s : AlarmState) (evs : List (Nat × List Detection)) : AlarmState :=
  evs.foldl (fun st e => process_detection_result st e.1 e.2) s

/-! ### Supervisor monitor loop (start_complete_system.py) -/

/-- Supervisor-side state about the AI Server: whether an AI Server entry
is present in the process table, and the global restart counter. -/
structure MonState where
  hasWorker : Bool
  restartCount : Nat
deriving Repr, DecidableEq

/-- Environment of one monitor pass: whether the worker process is alive
when polled, whether the status probe succeeds, and the outcomes of the
first and second start_ai_server calls the pass may make. -/
structure MonObs where
  alive : Bool
  probeOk : Bool
  restart1 : Bool
  restart2 : Bool
deriving Repr, DecidableEq

/-- Externally visible process actions of a monitor pass: terminate is
the graceful stop (terminate, bounded wait, kill on timeout); spawn is a
start_ai_server invocation. -/
inductive MonAct where
  | terminate
  | spawn
deriving Repr, DecidableEq

/-- The restart budget hard-coded in the monitor loop. -/
def max_ai_server_restarts : Nat := 3

/-- One pass of the monitor loop, restricted to the AI Server entry.
The pass iterates over the process list bound at loop entry; a dead
worker under budget is removed and relaunched there (counter incremented
on success).  After the loop the pass re-checks the current list: a live
worker that did not answer the probe this pass is, while under budget,
gracefully terminated, removed and relaunched.  A worker freshly
relaunched in the dead branch was never probed this pass, so it falls
into that second branch and is terminated and relaunched once more when
the budget still allows.  A failed relaunch leaves the counter unchanged
and the worker absent from the table. -/
def monitor_step (s : MonState) (o : MonObs) : MonState × List MonAct :=
  if s.hasWorker then
    if o.alive then
      if ¬o.probeOk ∧ s.restartCount < max_ai_server_restarts then
        if o.restart1 then
          (⟨true, s.restartCount + 1⟩, [.terminate, .spawn])
        else
          (⟨false, s.restartCount⟩, [.terminate, .spawn])
      else (s, [])
    else
      if s.restartCount < max_ai_server_restarts then
        if o.restart1 then
          if s.restartCount + 1 < max_ai_server_restarts then
            if o.restart2 then
              (⟨true, s.restartCount + 2⟩, [.spawn, .terminate, .spawn])
            else
              (⟨false, s.restartCount + 1⟩, [.spawn, .terminate, .spawn])
          else (⟨true, s.restartCount + 1⟩, [.spawn])
        else (⟨false, s.restartCount⟩, [.spawn])
      else (s, [])
  else (s, [])

/-- Several monitor passes, accumulating the actions taken. -/
def monitor_run (s : MonState) : List MonObs → MonState × List MonAct
  | [] => (s, [])
  | o :: os =>
    let r := monitor_step s o
    let rest := monitor_run r.1 os
    (rest.1, r.2 ++ rest.2)

/-- A pass in which the worker has crashed and both relaunches succeed. -/
def crashObs : MonObs := ⟨false, false, true, true⟩

/-! ## Theorems -/

/-- Claim C1, counterexample: reload_models_if_needed deletes the loaded
models before reloading, so when both the reload and its fallback raise
during the directory scan (no model individually failed to reload, the
scan itself failed), the previously-working model "m" is gone: the claim
that the available set never drops below the previously-working models
beyond individual reload failures is false here. -/
theorem C1_counterexample :
    ¬ ("m" ∈ (reload_models_if_needed ⟨["m"], 100, 0⟩ ⟨none, none⟩).models) := by
  decide

/-- Claim C1, amended: a due reload first discards every previously
loaded model; afterwards the table is exactly what the load from disk
produces — the successfully loading files of the main scan (with
last_model_reload advanced), else of the fallback scan (without
advancing last_model_reload), else empty.  Previously-working models
survive only by being reloaded from disk. -/
theorem C1_amended_reload_table (s : WorkerState) (env : ReloadEnv)
    (hdue : 100 ≤ s.request_counter - s.last_model_reload) :
    (∀ files, env.first = some files →
      (reload_models_if_needed s env).models = loadedNames files ∧
      (reload_models_if_needed s env).last_model_reload = s.request_counter) ∧
    (env.first = none → ∀ files, env.fallback = some files →
      (reload_models_if_needed s env).models = loadedNames files ∧
      (reload_models_if_needed s env).last_model_reload = s.last_model_reload) ∧
    (env.first = none → env.fallback = none →
      (reload_models_if_needed s env).models = []) := by
  obtain ⟨f1, f2⟩ := env
  refine ⟨?_, ?_, ?_⟩
  · intro files h1
    subst h1
    simp [reload_models_if_needed, load_models_into, hdue]
  · intro h1 files h2
    subst h1; subst h2
    simp [reload_models_if_needed, load_models_into, hdue]
  · intro h1 h2
    subst h1; subst h2
    simp [reload_models_if_needed, load_models_into, hdue]

/-- Claim C1, witness instantiating the amended reload theorem. -/
theorem C1_amended_reload_table_witness :
    (reload_models_if_needed ⟨["m"], 100, 0⟩
      ⟨some [("m", false), ("n", true)], none⟩).models =
      loadedNames [("m", false), ("n", true)] :=
  ((C1_amended_reload_table ⟨["m"], 100, 0⟩ ⟨some [("m", false), ("n", true)], none⟩
    (by decide)).1 [("m", false), ("n", true)] rfl).1

/-- Claim C5, counterexample: the client treats every status other than
200 as a failure, so a 204 response — a 2xx status, hence a success per
the claim — still increments consecutive_failures instead of resetting
it to 0. -/
theorem C5_counterexample :
    (send_to_ai_server ⟨0, 0, 0⟩ 5 (.response 204)).state.consecutive_failures ≠ 0 := by
  decide

/-- Claim C5, amended: consecutive_failures is reset to exactly 0 (and
the success timestamp updated) on a 200 response, and incremented by
exactly 1 on any other status and on any exception (timeout or
connection error). -/
theorem C5_amended_failure_counter (s : ClientState) (now : Nat) :
    ((send_to_ai_server s now (.response 200)).state.consecutive_failures = 0 ∧
      (send_to_ai_server s now (.response 200)).state.last_successful_request = now) ∧
    (∀ status, status ≠ 200 →
      (send_to_ai_server s now (.response status)).state.consecutive_failures =
        s.consecutive_failures + 1) ∧
    (∀ b, (send_to_ai_server s now (.exn b)).state.consecutive_failures =
        s.consecutive_failures + 1) := by
  refine ⟨by simp [send_to_ai_server], ?_, ?_⟩
  · intro status h
    simp [send_to_ai_server, h]
  · intro b
    simp [send_to_ai_server]

/-- Claim C5, witness instantiating the amended counter theorem. -/
theorem C5_failure_counter_witness :
    (send_to_ai_server ⟨0, 0, 0⟩ 7 (.response 500)).state.consecutive_failures = 0 + 1 :=
  (C5_amended_failure_counter ⟨0, 0, 0⟩ 7).2.1 500 (by decide)

/-- Claim C6, counterexample: reaching 3 consecutive failures through a
non-200 HTTP response emits no degraded log line and sleeps no extra
delay at all — the health-critical signal and the extra fixed sleep
live only in the exception path, and the 10-second sleep only starts at
5 consecutive failures. -/
theorem C6_counterexample :
    (send_to_ai_server ⟨0, 2, 0⟩ 9 (.response 500)).state.consecutive_failures = 3 ∧
    (send_to_ai_server ⟨0, 2, 0⟩ 9 (.response 500)).degradedSignal = false ∧
    (send_to_ai_server ⟨0, 2, 0⟩ 9 (.response 500)).extraSleep = 0 := by
  decide

/-- Claim C6, amended: HTTP-status failures never emit the
health-critical log nor sleep; on exception failures the health-critical
log is emitted exactly when consecutive_failures has reached 3 and the
extra fixed 10-second sleep happens exactly when it has reached 5; the
status report seen by observers says critical exactly from 3 consecutive
failures on; and every failed cycle pauses 2 extra seconds, so at the
default 1-second inter-frame interval the delay before the next cycle is
strictly greater than the base interval. -/
theorem C6_amended_backoff (s : ClientState) (now workTime : Nat) :
    (∀ status, status ≠ 200 →
      (send_to_ai_server s now (.response status)).degradedSignal = false ∧
      (send_to_ai_server s now (.response status)).extraSleep = 0) ∧
    (∀ b, ((send_to_ai_server s now (.exn b)).degradedSignal = true ↔
            3 ≤ s.consecutive_failures + 1) ∧
          (10 ≤ (send_to_ai_server s now (.exn b)).extraSleep ↔
            5 ≤ s.consecutive_failures + 1)) ∧
    (client_health (send_to_ai_server s now (.exn false)).state = "critical" ↔
      3 ≤ s.consecutive_failures + 1) ∧
    (∀ r : SendResult, r.gotResult = false →
      frame_interval < cycle_delay frame_interval workTime r) := by
  refine ⟨?_, ?_, ?_, ?_⟩
  · intro status h
    simp [send_to_ai_server, h]
  · intro b
    constructor
    · simp [send_to_ai_server]
    · simp only [send_to_ai_server]
      split_ifs <;> simp <;> omega
  · simp only [send_to_ai_server, client_health]
    split_ifs with h h1
    · simpa using h
    · exact iff_of_false (by decide) h
    · exact absurd (by omega) h1
  · intro r hr
    simp [cycle_delay, frame_interval, default_frame_rate, hr]

/-- Claim C6, witness instantiating the amended backoff theorem. -/
theorem C6_amended_backoff_witness :
    (send_to_ai_server ⟨0, 4, 0⟩ 3 (.exn false)).degradedSignal = true ∧
    frame_interval < cycle_delay frame_interval 0 (send_to_ai_server ⟨0, 4, 0⟩ 3 (.exn false)) :=
  ⟨((C6_amended_backoff ⟨0, 4, 0⟩ 3 0).2.1 false).1.mpr (by decide),
   (C6_amended_backoff ⟨0, 4, 0⟩ 3 0).2.2.2 _ (by decide)⟩

/-- Claim C8, counterexample: the capture client's request timeout is 15
seconds while the inter-frame interval at the configured 1 FPS is 1
second, so the timeout is not strictly shorter than the cycle period. -/
theorem C8_counterexample :
    ¬ (ai_request_timeout < frame_interval) := by
  decide

/-- Claim C8, amended: the request timeout is the fixed 15 seconds and
the default cycle period is 1 second, so the timeout strictly exceeds
the inter-frame interval rather than being shorter than it. -/
theorem C8_amended_timeout :
    ai_request_timeout = 15 ∧ frame_interval = 1 ∧
    frame_interval < ai_request_timeout := by
  decide

/-- Helper: while only negative events arrive whose times stay within 30
seconds of the last positive detection, the alarm state is unchanged. -/
theorem alarm_stays_true (t0 : Nat) (evs : List (Nat × List Detection))
    (hneg : ∀ e ∈ evs, is_target_fire e.2 = false)
    (hle : ∀ e ∈ evs, e.1 ≤ t0 + 30) :
    observe_events ⟨true, some t0⟩ evs = ⟨true, some t0⟩ := by
  induction evs with
  | nil => rfl
  | cons e rest ih =>
    have h1 : is_target_fire e.2 = false := hneg e (by simp)
    have h2 : e.1 ≤ t0 + 30 := hle e (by simp)
    have hstep : process_detection_result ⟨true, some t0⟩ e.1 e.2 = ⟨true, some t0⟩ := by
      simp only [process_detection_result, h1]
      rw [if_neg (by simp), if_neg (by omega)]
    show observe_events (process_detection_result ⟨true, some t0⟩ e.1 e.2) rest = _
    rw [hstep]
    exact ih (fun x hx => hneg x (List.mem_cons_of_mem e hx))
      (fun x hx => hle x (List.mem_cons_of_mem e hx))

/-- Claim C3: after a positive (target) detection at time t0, folding any
sequence of negative events through the alarm update keeps the flag true
as long as every event time is within the 30-second grace window of t0,
and if the flag ever ends up false then some negative event arrived
strictly more than the grace window after the last positive detection. -/
theorem C3_alarm_hysteresis (s : AlarmState) (t0 : Nat) (posDets : List Detection)
    (evs : List (Nat × List Detection))
    (hpos : is_target_fire posDets = true)
    (hneg : ∀ e ∈ evs, is_target_fire e.2 = false) :
    ((∀ e ∈ evs, e.1 ≤ t0 + 30) →
      (observe_events (process_detection_result s t0 posDets) evs).fire_on = true) ∧
    ((observe_events (process_detection_result s t0 posDets) evs).fire_on = false →
      ∃ e ∈ evs, t0 + 30 < e.1) := by
  have hstart : process_detection_result s t0 posDets = ⟨true, some t0⟩ := by
    simp [process_detection_result, hpos]
  rw [hstart]
  constructor
  · intro hle
    rw [alarm_stays_true t0 evs hneg hle]
  · intro hfalse
    by_contra hnone
    push_neg at hnone
    rw [alarm_stays_true t0 evs hneg (fun e he => by have := hnone e he; omega)] at hfalse
    simp at hfalse

/-- Claim C3, witness: a positive detection followed by negatives at 10,
20 and 30 seconds leaves the alarm on. -/
theorem C3_alarm_hysteresis_witness :
    (observe_events (process_detection_result ⟨false, none⟩ 0 [⟨"f", 0, 600⟩])
      [(10, []), (20, []), (30, [])]).fire_on = true :=
  (C3_alarm_hysteresis ⟨false, none⟩ 0 [⟨"f", 0, 600⟩] [(10, []), (20, []), (30, [])]
    (by decide) (by decide)).1 (by decide)

/-- Helper: loadedNames on a cons. -/
theorem loadedNames_cons (f : String × Bool) (rest : List (String × Bool)) :
    loadedNames (f :: rest) =
      if f.2 then f.1 :: loadedNames rest else loadedNames rest := by
  simp only [loadedNames, List.filter_cons]
  split_ifs <;> simp

/-- Helper: every table observable in the clearing phase is a suffix of
the pre-reload table. -/
theorem clear_trace_mem {pre t : Table} (h : t ∈ clear_trace pre) : t <:+ pre := by
  induction pre with
  | nil =>
    simp only [clear_trace, List.mem_singleton] at h
    subst h
    exact List.nil_suffix
  | cons m rest ih =>
    simp only [clear_trace, List.mem_cons] at h
    rcases h with h | h
    · subst h
      exact List.suffix_refl _
    · exact (ih h).trans (List.suffix_cons m rest)

/-- Helper: every table observable in the loading phase extends the
accumulator by a prefix of the names load_models will have added. -/
theorem load_trace_mem : ∀ (files : List (String × Bool)) (acc t : Table),
    t ∈ load_trace acc files → t <+: acc ++ loadedNames files := by
  intro files
  induction files with
  | nil =>
    intro acc t h
    simp [load_trace] at h
  | cons f rest ih =>
    intro acc t h
    simp only [load_trace, List.mem_cons] at h
    by_cases hf : f.2 = true
    · rcases h with h | h
      · refine ⟨loadedNames rest, ?_⟩
        rw [h]
        simp [loadedNames_cons, hf]
      · have := ih (acc ++ [f.1]) t (by simpa [hf] using h)
        simpa [loadedNames_cons, hf] using this
    · rcases h with h | h
      · refine ⟨loadedNames rest, ?_⟩
        rw [h]
        simp [loadedNames_cons, hf]
      · have := ih acc t (by simpa [hf] using h)
        simpa [loadedNames_cons, hf] using this

/-- Helper: the full pre-reload table is observable (it is the state
before the first deletion). -/
theorem pre_mem_reload_trace (pre : Table) (files : List (String × Bool)) :
    pre ∈ reload_trace pre files := by
  apply List.mem_append_left
  cases pre <;> simp [clear_trace]

/-- Helper: the empty table is observable in the clearing phase. -/
theorem nil_mem_clear_trace (pre : Table) : ([] : Table) ∈ clear_trace pre := by
  induction pre with
  | nil => simp [clear_trace]
  | cons m rest ih => simp [clear_trace, ih]

/-- Helper: the final loaded table is observable at the end of the
loading phase. -/
theorem load_trace_final : ∀ (files : List (String × Bool)) (acc : Table),
    files ≠ [] → acc ++ loadedNames files ∈ load_trace acc files := by
  intro files
  induction files with
  | nil => intro acc h; exact absurd rfl h
  | cons f rest ih =>
    intro acc _
    have hacc : acc ++ loadedNames (f :: rest) =
        (if f.2 then acc ++ [f.1] else acc) ++ loadedNames rest := by
      by_cases hf : f.2 = true <;> simp [loadedNames_cons, hf]
    cases rest with
    | nil =>
      simp only [load_trace]
      rw [hacc]
      simp [loadedNames]
    | cons r rs =>
      simp only [load_trace]
      refine List.mem_cons_of_mem _ ?_
      rw [hacc]
      exact ih _ (by simp)

/-- Helper: the post-reload table is observable. -/
theorem post_mem_reload_trace (pre : Table) (files : List (String × Bool)) :
    loadedNames files ∈ reload_trace pre files := by
  cases files with
  | nil =>
    apply List.mem_append_left
    simpa [loadedNames] using nil_mem_clear_trace pre
  | cons f rest =>
    apply List.mem_append_right
    simpa using load_trace_final (f :: rest) [] (by simp)

/-- Claim C9, counterexample: during a reload that starts from the table
with model "m" and successfully reloads the same model, the empty table
is observable by a concurrent reader, and it is neither the pre-reload
table nor the post-reload table — the reload mutates the shared dict in
place rather than swapping in a complete copy. -/
theorem C9_counterexample :
    ([] : Table) ∈ reload_trace ["m"] [("m", true)] ∧
    ([] : Table) ≠ ["m"] ∧
    ([] : Table) ≠ loadedNames [("m", true)] := by
  decide

/-- Claim C9, amended: the reload clears and repopulates the one shared
table in place, so a concurrent reader can observe intermediate tables;
every observable table is either a suffix of the pre-reload table (the
clearing phase deletes keys front to back) or a prefix of the post-reload
table (loading appends one model at a time), and both the complete pre
table and the complete post table are among the observable states. -/
theorem C9_amended_reload_trace (pre : Table) (files : List (String × Bool)) :
    (∀ t ∈ reload_trace pre files, t <:+ pre ∨ t <+: loadedNames files) ∧
    pre ∈ reload_trace pre files ∧
    loadedNames files ∈ reload_trace pre files := by
  refine ⟨?_, pre_mem_reload_trace pre files, post_mem_reload_trace pre files⟩
  intro t ht
  rcases List.mem_append.mp ht with h | h
  · exact Or.inl (clear_trace_mem h)
  · exact Or.inr (by simpa using load_trace_mem files [] t h)

/-- Claim C9, witness: the amended trace theorem applied to the
counterexample reload. -/
theorem C9_amended_reload_trace_witness :
    ([] : Table) <:+ ["m"] ∨ ([] : Table) <+: loadedNames [("m", true)] :=
  (C9_amended_reload_trace ["m"] [("m", true)]).1 [] (by decide)

/-- Claim C4, counterexample: an unresponsive-worker cycle in which the
relaunch fails leaves the restart counter unchanged (0, not 0 + 1) and
removes the AI Server from the supervised process table, so no later
pass can restart it even though the budget is not exhausted. -/
theorem C4_counterexample :
    (monitor_step ⟨true, 0⟩ ⟨true, false, false, false⟩).1 = ⟨false, 0⟩ ∧
    (monitor_step ⟨true, 0⟩ ⟨true, false, false, false⟩).1.restartCount ≠ 0 + 1 := by
  decide

/-- Claim C4, amended: a live worker failing its status probe is, while
the restart budget (3) is unspent, gracefully terminated (terminate,
bounded wait, kill on timeout) before a relaunch, and the counter
increments by exactly 1 when the relaunch succeeds; once the counter has
reached 3 a monitor pass takes no action at all (no restart attempt and
no distinct terminal alert); and a worker that keeps crashing with
successful relaunches is relaunched exactly 3 times in total over any 4
passes (the pass after the first crash relaunches twice, because the
freshly started server has not been probed and is judged unresponsive). -/
theorem C4_amended_supervisor :
    (∀ c, c < max_ai_server_restarts → ∀ r2 : Bool,
      monitor_step ⟨true, c⟩ ⟨true, false, true, r2⟩ =
        (⟨true, c + 1⟩, [.terminate, .spawn])) ∧
    (∀ (s : MonState) (o : MonObs), max_ai_server_restarts ≤ s.restartCount →
      monitor_step s o = (s, [])) ∧
    ((monitor_run ⟨true, 0⟩ (List.replicate 4 crashObs)).1 = ⟨true, 3⟩ ∧
      (monitor_run ⟨true, 0⟩ (List.replicate 4 crashObs)).2.count MonAct.spawn = 3) := by
  refine ⟨?_, ?_, by decide⟩
  · intro c hc r2
    simp [monitor_step, hc]
  · intro s o h
    obtain ⟨hw, c⟩ := s
    obtain ⟨al, pr, r1, r2⟩ := o
    simp only [max_ai_server_restarts] at h
    have hnc : ¬ c < 3 := by omega
    cases hw <;> cases al <;> cases pr <;> cases r1 <;> cases r2 <;>
      simp [monitor_step, max_ai_server_restarts, hnc]

/-- Claim C4, witness: one unresponsive cycle with a successful relaunch
from a fresh supervisor increments the counter to exactly 1. -/
theorem C4_amended_supervisor_witness :
    monitor_step ⟨true, 0⟩ ⟨true, false, true, false⟩ =
      (⟨true, 1⟩, [MonAct.terminate, MonAct.spawn]) :=
  C4_amended_supervisor.1 0 (by decide) false

/-- Helper: full evaluation of one successful detect call against the
single loaded model. -/
theorem detect_good_eval (n l : Nat) :
    detect_objects ⟨["m"], n, l⟩ goodEnv =
      ⟨if 100 ≤ n + 1 - l then ⟨["m"], n + 1, n + 1⟩ else ⟨["m"], n + 1, l⟩, 200,
        (n + 1) % 20 == 0, decide (200 < n + 1), decide (100 ≤ n + 1 - l),
        some ⟨[], 7, 640, 480, n + 1⟩⟩ := by
  by_cases hdue : 100 ≤ n + 1 - l <;>
    simp [detect_objects, goodEnv, reload_models_if_needed, load_models_into, loadedNames, hdue]

/-- Helper: after k successful detect calls from server start, the model
stays loaded, the counter equals k and last_model_reload is the last
multiple of 100 the counter has passed. -/
theorem iter_detect_spec (k : Nat) :
    iter_detect k = ⟨["m"], k, 100 * (k / 100)⟩ := by
  induction k with
  | zero => rfl
  | succ n ih =>
    show (detect_objects (iter_detect n) goodEnv).state = _
    rw [ih, detect_good_eval]
    by_cases hdue : 100 ≤ n + 1 - 100 * (n / 100)
    · dsimp only
      rw [if_pos hdue]
      simp only [WorkerState.mk.injEq, true_and]
      omega
    · dsimp only
      rw [if_neg hdue]
      simp only [WorkerState.mk.injEq, true_and]
      omega

/-- Claim C2, counterexample: in the run of 201 successful detect calls
from server start, call 201 performs a garbage-collection pass (the
post-response pass that runs after every successful request once the
counter exceeds 200) even though 201 is not a multiple of the GC
interval 20 — so GC does not occur exactly on the multiples of 20. -/
theorem C2_counterexample :
    gcOccurred (detect_objects (iter_detect 200) goodEnv) = true ∧ ¬ (201 % 20 = 0) := by
  rw [iter_detect_spec, detect_good_eval]
  decide

/-- Claim C2, amended: in a run of successful detect calls from server
start (every request valid, every reload finding the model on disk), a
GC pass occurs on call N exactly when N is a multiple of 20 or N
exceeds 200 (the post-response pass), and a reload is attempted on call
N exactly when N is a multiple of 100 (the accumulated count since the
last reload reaching 100). -/
theorem C2_amended_schedule (k : Nat) :
    (gcOccurred (detect_objects (iter_detect k) goodEnv) = true ↔
      ((k + 1) % 20 = 0 ∨ 200 < k + 1)) ∧
    ((detect_objects (iter_detect k) goodEnv).reloadAttempted = true ↔
      (k + 1) % 100 = 0) ∧
    (detect_objects (iter_detect k) goodEnv).status = 200 := by
  rw [iter_detect_spec, detect_good_eval]
  dsimp only [gcOccurred]
  refine ⟨?_, ?_, rfl⟩
  · simp only [Bool.or_eq_true, beq_iff_eq, decide_eq_true_eq]
    omega
  · simp only [decide_eq_true_eq]
    omega

/-- Claim C7: the detect endpoint returns 400 when the requested model
is not in the (post-reload) table or the image does not decode, 500 when
inference raises, and on success 200 with the detections, the processing
latency and the image dimensions in the response. -/
theorem C7_detect_contract (s : WorkerState) (re : ReloadEnv) (m : String)
    (dec : Bool) (infer : Option InferOut) :
    (m ∉ (reload_models_if_needed { s with request_counter := s.request_counter + 1 } re).models →
      (detect_objects s ⟨.request m dec infer, re⟩).status = 400) ∧
    (m ∈ (reload_models_if_needed { s with request_counter := s.request_counter + 1 } re).models →
      dec = false → (detect_objects s ⟨.request m dec infer, re⟩).status = 400) ∧
    (m ∈ (reload_models_if_needed { s with request_counter := s.request_counter + 1 } re).models →
      dec = true → infer = none → (detect_objects s ⟨.request m dec infer, re⟩).status = 500) ∧
    (∀ out, m ∈ (reload_models_if_needed { s with request_counter := s.request_counter + 1 } re).models →
      dec = true → infer = some out →
      (detect_objects s ⟨.request m dec infer, re⟩).status = 200 ∧
      (detect_objects s ⟨.request m dec infer, re⟩).response =
        some ⟨out.detections, out.proc_time_ms, out.width, out.height,
          s.request_counter + 1⟩) := by
  refine ⟨?_, ?_, ?_, ?_⟩
  · intro hm
    simp [detect_objects, hm]
  · intro hm hdec
    subst hdec
    simp [detect_objects, hm]
  · intro hm hdec hinf
    subst hdec; subst hinf
    simp [detect_objects, hm]
  · intro out hm hdec hinf
    subst hdec; subst hinf
    simp [detect_objects, hm]

/-- Claim C7, witness: a successful detect call from server start
returns 200 with detections, latency and image size. -/
theorem C7_detect_contract_witness :
    (detect_objects initWorker ⟨.request "m" true (some ⟨[], 7, 640, 480⟩),
      goodEnv.reload⟩).status = 200 ∧
    (detect_objects initWorker ⟨.request "m" true (some ⟨[], 7, 640, 480⟩),
      goodEnv.reload⟩).response = some ⟨[], 7, 640, 480, 1⟩ :=
  (C7_detect_contract initWorker goodEnv.reload "m" true (some ⟨[], 7, 640, 480⟩)).2.2.2
    ⟨[], 7, 640, 480⟩ (by decide) rfl rfl

/-- Claim C10: every detect call increments the request counter by
exactly 1, and the maintenance schedule — the post-call worker state
(counter, last_model_reload, model table), the scheduled GC decision and
the reload-attempt decision — depends only on the reload environment,
not on the request, so calls failing with 400 or 500 advance the
schedule exactly as successful calls do. -/
theorem C10_schedule_invariance (s : WorkerState) (e1 e2 : DetectEnv)
    (h : e1.reload = e2.reload) :
    (detect_objects s e1).state.request_counter = s.request_counter + 1 ∧
    (detect_objects s e1).state = (detect_objects s e2).state ∧
    (detect_objects s e1).gcScheduled = (detect_objects s e2).gcScheduled ∧
    (detect_objects s e1).reloadAttempted = (detect_objects s e2).reloadAttempted := by
  have hstate : ∀ e : DetectEnv, (detect_objects s e).state =
      reload_models_if_needed { s with request_counter := s.request_counter + 1 } e.reload := by
    intro e
    rcases e with ⟨req, re⟩
    cases req with
    | notJson => rfl
    | noImage => rfl
    | request m d inf =>
      cases inf <;> simp only [detect_objects] <;> split_ifs <;> rfl
  have hgc : ∀ e : DetectEnv,
      (detect_objects s e).gcScheduled = ((s.request_counter + 1) % 20 == 0) := by
    intro e
    rcases e with ⟨req, re⟩
    cases req with
    | notJson => rfl
    | noImage => rfl
    | request m d inf =>
      cases inf <;> simp only [detect_objects] <;> split_ifs <;> rfl
  have hra : ∀ e : DetectEnv, (detect_objects s e).reloadAttempted =
      decide (100 ≤ s.request_counter + 1 - s.last_model_reload) := by
    intro e
    rcases e with ⟨req, re⟩
    cases req with
    | notJson => rfl
    | noImage => rfl
    | request m d inf =>
      cases inf <;> simp only [detect_objects] <;> split_ifs <;> rfl
  have hcounter : ∀ (t : WorkerState) (re : ReloadEnv),
      (reload_models_if_needed t re).request_counter = t.request_counter := by
    intro t re
    rcases re with ⟨f1, f2⟩
    simp only [reload_models_if_needed]
    split_ifs
    · cases f1 <;> cases f2 <;> rfl
    · rfl
  refine ⟨?_, ?_, ?_, ?_⟩
  · rw [hstate e1, hcounter]
  · rw [hstate e1, hstate e2, h]
  · rw [hgc e1, hgc e2]
  · rw [hra e1, hra e2]

/-- Claim C10, witness: a non-JSON request and a successful request with
the same reload environment leave the worker in the same state. -/
theorem C10_schedule_invariance_witness :
    (detect_objects initWorker ⟨.notJson, goodEnv.reload⟩).state =
      (detect_objects initWorker goodEnv).state :=
  (C10_schedule_invariance initWorker ⟨.notJson, goodEnv.reload⟩ goodEnv rfl).2.1

end IotFarming
